import Mathlib

/-!
Verification of the cxx-prettyprint formatting engine (`printer.hpp`).

The C++ engine is a compile-time-dispatched recursive formatter: `ToString`
classifies a value by type traits (`is_container`, `is_string_like`) and
renders containers through `print_container_helper`, whose nested `printer`
template has specializations for `std::pair` and `std::tuple`.  We embed the
runtime shapes the engine can format as an inductive `Value` (scalar, text,
pair, tuple, iterable) and translate each printing function; the static type
classification is embedded separately as functions on a `CppType` grammar.
-/

namespace pretty_print

/-- Delimiter triple (`delimiters_values` in the source).  The C++ fields
`prefix`, `delimiter`, `postfix` are nullable `const char *`, so each field
is an `Option String`; `none` models a NULL pointer. -/
structure delimiters_values where
  pre : Option String
  delim : Option String
  post : Option String

/-- Emission of a nullable delimiter field: the source guards every use with
`!= NULL`, so a NULL field contributes nothing to the output. -/
def optStr : Option String → String
  | none => ""
  | some s => s

/-- Which `delimiters` specialization applies to an iterable container:
the primary template (`{ "[", ", ", "]" }`) or the (multi/unordered)set
family (`{ "{", ", ", "}" }`). -/
inductive ContainerKind where
  | listLike
  | setLike
deriving DecidableEq

/-- `delimiters<T, char>::values` for iterable containers: the primary
template gives `[", ", ", "]`, the set-family specializations give braces. -/
def container_delims : ContainerKind → delimiters_values
  | .listLike => ⟨some "[", some ", ", some "]"⟩
  | .setLike => ⟨some "\x7b", some ", ", some "\x7d"⟩

/-- `delimiters<std::pair<T1, T2>, char>::values = { "", ": ", "" }`
(printer.hpp line 312): the default pair delimiters are map-entry style. -/
def pair_delims : delimiters_values := ⟨some "", some ": ", some ""⟩

/-- `delimiters<std::tuple<Args...>, char>::values = { "(", ", ", ")" }`. -/
def tuple_delims : delimiters_values := ⟨some "(", some ", ", some ")"⟩

/-- The scalar values the engine's `std::to_string` branch accepts and that
the demos exercise: `bool` and integers.  (`char` is deliberately absent:
`is_string_like<char>` holds, so a `char` is never dispatched to the scalar
overload — see the classifier model below.) -/
inductive CScalar where
  | sbool (b : Bool)
  | sint (i : Int)

/-- Little-endian decimal digits of `n`; the first argument is structural
fuel (`n` itself suffices since `n / 10 < n` for `n > 0`). -/
def natDigitsAux : Nat → Nat → List Nat
  | 0, _ => []
  | fuel + 1, n => if n = 0 then [] else n % 10 :: natDigitsAux fuel (n / 10)

/-- Decimal rendering of a natural number, as `std::to_string` produces. -/
def to_string_nat (n : Nat) : String :=
  if n = 0 then "0"
  else String.mk ((natDigitsAux n n).reverse.map (fun d => Char.ofNat (48 + d)))

/-- Decimal rendering of an integer, as `std::to_string(int)` produces. -/
def to_string_int : Int → String
  | .ofNat n => to_string_nat n
  | .negSucc n => "-" ++ to_string_nat (n + 1)

/-- Model of the scalar `ToStringHelper` overload, `std::to_string(container)`
(printer.hpp lines 406-412).  `std::to_string` has no `bool` overload, so a
`bool` undergoes integral promotion and renders as `1` or `0`. -/
def scalar_to_string : CScalar → String
  | .sbool b => if b then "1" else "0"
  | .sint i => to_string_int i

/-- Runtime shapes formattable by the engine: scalars, string-like text,
`std::pair`, `std::tuple`, and begin/end iterables (whose elements appear in
the container's traversal order). -/
inductive Value where
  | scalar (v : CScalar)
  | text (s : String)
  | pair (a b : Value)
  | tuple (es : List Value)
  | iter (k : ContainerKind) (es : List Value)

/-- The default `delimiters<T, char>::values` selected for a value's static
type: the pair/tuple specializations, the set-family specializations, or the
primary template. -/
def delimiters_of : Value → delimiters_values
  | .pair _ _ => pair_delims
  | .tuple _ => tuple_delims
  | .iter k _ => container_delims k
  | _ => ⟨some "[", some ", ", some "]"⟩

mutual

/-- `ToString` (printer.hpp lines 422-429 with the `ToStringHelper`
overloads at 396-420): string-like values are wrapped in quote characters
with no escaping; non-container non-string values go to `std::to_string`;
containers go to `print_container_helper<T>(container)()` with the default
`delimiters<T, char>`. -/
def ToString : Value → String
  | .scalar v => scalar_to_string v
  | .text s => "\"" ++ s ++ "\""
  | v =>
      optStr (delimiters_of v).pre
        ++ helper_body (delimiters_of v).delim v
        ++ optStr (delimiters_of v).post
termination_by v => (sizeOf v, 1)
decreasing_by all_goals (first | omega | (simp_wf; omega))

/-- Dispatch of `print_container_helper<T, TDelimiters>::printer<U>` to the
matching `print_body`: the `std::pair` specialization (lines 153-166, inlined
here), the `std::tuple` specialization (lines 171-210), or the generic
range-for loop (lines 115-127).  Non-container values admit no valid
`printer` instantiation in the source (a compile-time rejection), so that
branch is unreachable from `ToString`. -/
def helper_body (d : Option String) : Value → String
  | .pair a b => ToString a ++ optStr d ++ ToString b
  | .tuple es => tuple_print d es
  | .iter _ es => print_body d es
  | _ => ""
termination_by v => (sizeOf v, 0)
decreasing_by all_goals (first | omega | (simp_wf; omega))

/-- Generic `printer<U>::print_body`: the range-for with the `is_first`
flag, unrolled into a first iteration (no delimiter) and the rest. -/
def print_body (d : Option String) : List Value → String
  | [] => ""
  | e :: es => ToString e ++ print_body_rest d es
termination_by l => (sizeOf l, 0)
decreasing_by all_goals (first | omega | (simp_wf; omega))

/-- Iterations of `print_body`'s loop after the first: each emits the
delimiter (when non-NULL) and then `ToString` of the element. -/
def print_body_rest (d : Option String) : List Value → String
  | [] => ""
  | e :: es => optStr d ++ ToString e ++ print_body_rest d es
termination_by l => (sizeOf l, 0)
decreasing_by all_goals (first | omega | (simp_wf; omega))

/-- `printer<std::tuple<Args...>>::tuple_print` starting at `Int<0>`:
element 0 is emitted bare, elements 1..N-1 via the `Int<N>` overload. -/
def tuple_print (d : Option String) : List Value → String
  | [] => ""
  | e :: es => ToString e ++ tuple_print_rest d es
termination_by l => (sizeOf l, 0)
decreasing_by all_goals (first | omega | (simp_wf; omega))

/-- The `Int<N>` (`N >= 1`) overload of `tuple_print`: delimiter (when
non-NULL), the element, then the remaining positions. -/
def tuple_print_rest (d : Option String) : List Value → String
  | [] => ""
  | e :: es => optStr d ++ ToString e ++ tuple_print_rest d es
termination_by l => (sizeOf l, 0)
decreasing_by all_goals (first | omega | (simp_wf; omega))

end

/-- `print_container_helper<T, TDelimiters>::operator()` (printer.hpp lines
134-145): emit the prefix field when non-NULL, the body printed by the
matching `printer<T>` specialization, then the postfix field when non-NULL.
The `TDelimiters` template parameter is the `dv` argument; instantiating it
with `delimiters_of v` gives the default instantiation `delimiters<T, char>`
used by `ToStringHelper`. -/
def print_container_helper (dv : delimiters_values) (v : Value) : String :=
  optStr dv.pre ++ helper_body dv.delim v ++ optStr dv.post

/-- `custom_delims_wrapper<T, Delims>::stream` (prettyprint.hpp lines
331-348): the type-erased one-off wrapper streams
`print_container_helper<T, ..., Delims>(t)`, i.e. the same printing
functor with the caller-chosen delimiter set substituted for the default. -/
def custom_delims_wrapper (dv : delimiters_values) (v : Value) : String :=
  print_container_helper dv v

/-- A container value's `ToString` is `print_container_helper` at the
type's default delimiter set. -/
theorem ToString_pair_eq (a b : Value) :
    ToString (.pair a b) = print_container_helper pair_delims (.pair a b) := by
  simp [ToString, print_container_helper, delimiters_of]

theorem ToString_tuple_eq (es : List Value) :
    ToString (.tuple es) = print_container_helper tuple_delims (.tuple es) := by
  simp [ToString, print_container_helper, delimiters_of]

theorem ToString_iter_eq (k : ContainerKind) (es : List Value) :
    ToString (.iter k es) = print_container_helper (container_delims k) (.iter k es) := by
  simp [ToString, print_container_helper, delimiters_of]

/-- Concatenation of already-rendered element texts with nothing between
them (the output shape when the delimiter field is NULL). -/
def strConcat : List String → String
  | [] => ""
  | x :: xs => x ++ strConcat xs

/-- The texts joined by a separator: empty list gives the empty string, a
singleton gives the bare text (no separator), and each further element is
preceded by one copy of the separator. -/
def joinSep (sep : String) : List String → String
  | [] => ""
  | [x] => x
  | x :: y :: xs => x ++ sep ++ joinSep sep (y :: xs)

theorem tuple_print_rest_eq (d : Option String) (l : List Value) :
    tuple_print_rest d l = print_body_rest d l := by
  induction l with
  | nil => simp [tuple_print_rest, print_body_rest]
  | cons e es ih => simp [tuple_print_rest, print_body_rest, ih]

theorem tuple_print_eq (d : Option String) (l : List Value) :
    tuple_print d l = print_body d l := by
  cases l with
  | nil => simp [tuple_print, print_body]
  | cons e es => simp [tuple_print, print_body, tuple_print_rest_eq]

theorem joinSep_cons_rest (s : String) (l : List Value) :
    ∀ x : String, joinSep s (x :: l.map ToString) = x ++ print_body_rest (some s) l := by
  induction l with
  | nil => intro x; simp [joinSep, print_body_rest]
  | cons e es ih =>
      intro x
      simp only [List.map_cons, joinSep, print_body_rest, ih (ToString e), optStr]
      simp [String.append_assoc]

/-- The generic container body with a non-NULL delimiter is exactly the
element texts joined by that delimiter. -/
theorem print_body_some (s : String) (l : List Value) :
    print_body (some s) l = joinSep s (l.map ToString) := by
  cases l with
  | nil => simp [print_body, joinSep]
  | cons e es => simp [print_body, joinSep_cons_rest]

theorem print_body_rest_none (l : List Value) :
    print_body_rest none l = strConcat (l.map ToString) := by
  induction l with
  | nil => simp [print_body_rest, strConcat]
  | cons e es ih => simp [print_body_rest, strConcat, ih, optStr]

/-- The generic container body with a NULL delimiter is the element texts
concatenated directly, nothing in between. -/
theorem print_body_none (l : List Value) :
    print_body none l = strConcat (l.map ToString) := by
  cases l with
  | nil => simp [print_body, strConcat]
  | cons e es => simp [print_body, strConcat, print_body_rest_none]

theorem natDigitsAux_lt (fuel : Nat) :
    ∀ (n : Nat), ∀ d ∈ natDigitsAux fuel n, d < 10 := by
  induction fuel with
  | zero => intro n d hd; simp [natDigitsAux] at hd
  | succ f ih =>
      intro n d hd
      simp only [natDigitsAux] at hd
      by_cases h0 : n = 0
      · simp [h0] at hd
      · simp only [h0, if_false, List.mem_cons] at hd
        rcases hd with h | h
        · subst h; exact Nat.mod_lt _ (by decide)
        · exact ih (n / 10) d h

theorem to_string_nat_digits (n : Nat) :
    ∀ c ∈ (to_string_nat n).data, c.isDigit = true := by
  intro c hc
  unfold to_string_nat at hc
  by_cases h0 : n = 0
  · simp [h0] at hc
    subst hc; decide
  · simp only [h0, if_false] at hc
    change c ∈ (natDigitsAux n n).reverse.map (fun d => Char.ofNat (48 + d)) at hc
    rcases List.mem_map.mp hc with ⟨d, hd, rfl⟩
    have hlt : d < 10 := natDigitsAux_lt n n d (List.mem_reverse.mp hd)
    interval_cases d <;> decide

mutual

/-- Nesting depth of a value: leaves (scalars, text) have depth 0, each
aggregate level adds one.  This is the depth of the recursion tree the C++
engine builds when formatting the value. -/
def depth : Value → Nat
  | .scalar _ => 0
  | .text _ => 0
  | .pair a b => 1 + max (depth a) (depth b)
  | .tuple es => 1 + depthList es
  | .iter _ es => 1 + depthList es
termination_by v => sizeOf v

/-- Maximum depth over a list of element values. -/
def depthList : List Value → Nat
  | [] => 0
  | e :: es => max (depth e) (depthList es)
termination_by l => sizeOf l

end

/-- The generic/pair/tuple body applied to already-rendered texts: first
text bare, each later text preceded by the delimiter when non-NULL. -/
def body_of_strings (d : Option String) : List String → String
  | [] => ""
  | x :: xs => x ++ rest_of_strings d xs
where
  rest_of_strings (d : Option String) : List String → String
    | [] => ""
    | x :: xs => optStr d ++ x ++ rest_of_strings d xs

mutual

/-- Depth-budgeted version of `ToString`: identical recursion, but one unit
of an explicit budget is consumed per aggregate level, and the budget
running out yields `none`.  Used to state that the engine's recursion depth
is bounded by the nesting depth of the input. -/
def ToStringFuel : Nat → Value → Option String
  | _, .scalar v => some (scalar_to_string v)
  | _, .text s => some ("\"" ++ s ++ "\"")
  | 0, _ => none
  | f + 1, .pair a b =>
      match ToStringFuel f a, ToStringFuel f b with
      | some sa, some sb =>
          some (optStr pair_delims.pre ++ (sa ++ optStr pair_delims.delim ++ sb)
            ++ optStr pair_delims.post)
      | _, _ => none
  | f + 1, .tuple es =>
      match fuelList f es with
      | some ss =>
          some (optStr tuple_delims.pre ++ body_of_strings tuple_delims.delim ss
            ++ optStr tuple_delims.post)
      | none => none
  | f + 1, .iter k es =>
      match fuelList f es with
      | some ss =>
          some (optStr (container_delims k).pre
            ++ body_of_strings (container_delims k).delim ss
            ++ optStr (container_delims k).post)
      | none => none
termination_by f v => (f, sizeOf v)

/-- Depth-budgeted rendering of a container's elements. -/
def fuelList : Nat → List Value → Option (List String)
  | _, [] => some []
  | f, e :: es =>
      match ToStringFuel f e, fuelList f es with
      | some s, some ss => some (s :: ss)
      | _, _ => none
termination_by f l => (f, sizeOf l)

end

theorem rest_of_strings_map (d : Option String) (l : List Value) :
    body_of_strings.rest_of_strings d (l.map ToString) = print_body_rest d l := by
  induction l with
  | nil => simp [body_of_strings.rest_of_strings, print_body_rest]
  | cons e es ih => simp [body_of_strings.rest_of_strings, print_body_rest, ih]

theorem body_of_strings_map (d : Option String) (l : List Value) :
    body_of_strings d (l.map ToString) = print_body d l := by
  cases l with
  | nil => simp [body_of_strings, print_body]
  | cons e es => simp [body_of_strings, print_body, rest_of_strings_map]

theorem depth_le_depthList (e : Value) (l : List Value) (h : e ∈ l) :
    depth e ≤ depthList l := by
  induction l with
  | nil => cases h
  | cons x xs ih =>
      rcases List.mem_cons.mp h with rfl | hmem
      · simp [depthList]
      · simp only [depthList]
        exact le_max_of_le_right (ih hmem)

mutual

theorem fuel_sufficient : ∀ (v : Value) (f : Nat), depth v ≤ f →
    ToStringFuel f v = some (ToString v)
  | .scalar s, f, _ => by simp [ToStringFuel, ToString]
  | .text s, f, _ => by simp [ToStringFuel, ToString]
  | .pair a b, f, h => by
      match f with
      | 0 => simp [depth] at h
      | f + 1 =>
        have ha : depth a ≤ f := by simp only [depth] at h; omega
        have hb : depth b ≤ f := by simp only [depth] at h; omega
        rw [ToStringFuel, fuel_sufficient a f ha, fuel_sufficient b f hb]
        simp [ToString, delimiters_of, helper_body]
  | .tuple es, f, h => by
      match f with
      | 0 => simp [depth] at h
      | f + 1 =>
        have he : depthList es ≤ f := by simp only [depth] at h; omega
        rw [ToStringFuel, fuelList_sufficient es f he]
        simp [ToString, delimiters_of, helper_body, body_of_strings_map,
          tuple_print_eq]
  | .iter k es, f, h => by
      match f with
      | 0 => simp [depth] at h
      | f + 1 =>
        have he : depthList es ≤ f := by simp only [depth] at h; omega
        rw [ToStringFuel, fuelList_sufficient es f he]
        simp [ToString, delimiters_of, helper_body, body_of_strings_map]

theorem fuelList_sufficient : ∀ (l : List Value) (f : Nat), depthList l ≤ f →
    fuelList f l = some (l.map ToString)
  | [], f, _ => by simp [fuelList]
  | e :: es, f, h => by
      have he : depth e ≤ f := le_trans (by simp [depthList]) h
      have hes : depthList es ≤ f := le_trans (by simp [depthList]) h
      rw [fuelList, fuel_sufficient e f he, fuelList_sufficient es f hes]
      simp

end

/-- The static C++ types over which the classifier traits are modelled:
the scalar builtins, `std::string`, pointers (`char*` is `ptrT charT`),
fixed-size `char` arrays, the begin/end containers the demos use
(`std::vector`, the set family), `std::pair` and `std::tuple`.  Const
qualification is not tracked: the source only uses `remove_const` to
collapse `const char*` and `char*`, which this grammar already identifies. -/
inductive CppType where
  | boolT
  | charT
  | intT
  | stdString
  | ptrT (t : CppType)
  | charArray (n : Nat)
  | vectorT (t : CppType)
  | setT (t : CppType)
  | pairT (a b : CppType)
  | tupleT (ts : List CppType)

/-- `std::decay` on the modelled types: a fixed-size array decays to a
pointer to its element type; the rest are unchanged. -/
def decayT : CppType → CppType
  | .charArray _ => .ptrT .charT
  | t => t

/-- `std::remove_pointer` on the modelled types. -/
def remove_pointer : CppType → CppType
  | .ptrT t => t
  | t => t

/-- `std::remove_const`: the identity here, since const qualification is
not tracked by the grammar. -/
def remove_const (t : CppType) : CppType := t

/-- `std::add_pointer` on the modelled types. -/
def add_pointer (t : CppType) : CppType := .ptrT t

/-- `pretty_print::is_string_like` (printer.hpp lines 214-223): with
`T0 = decay T`, `T1 = remove_pointer T0`, `T2 = remove_const T1`,
`T3 = add_pointer T2`, the value is
`is_same<T, std::string> || is_same<T3, char*>`. -/
def is_string_like (t : CppType) : Bool :=
  (match t with
    | .stdString => true
    | _ => false)
  || (match add_pointer (remove_const (remove_pointer (decayT t))) with
    | .ptrT .charT => true
    | _ => false)

/-- `detail::has_const_iterator` (printer.hpp lines 42-52): whether the
type exposes a member type `const_iterator`.  Of the modelled types this
holds for `std::string`, `std::vector` and the set family; builtins,
pointers, raw arrays, `std::pair` and `std::tuple` have no member types. -/
def has_const_iterator : CppType → Bool
  | .stdString => true
  | .vectorT _ => true
  | .setT _ => true
  | _ => false

/-- `detail::has_begin_end::beg_value` (printer.hpp lines 54-75): whether
`T::const_iterator T::begin() const` exists; on the modelled types this
coincides with having a `const_iterator` member. -/
def has_begin_end_beg : CppType → Bool
  | .stdString => true
  | .vectorT _ => true
  | .setT _ => true
  | _ => false

/-- `detail::has_begin_end::end_value`, analogously for `end`. -/
def has_begin_end_end : CppType → Bool
  | .stdString => true
  | .vectorT _ => true
  | .setT _ => true
  | _ => false

/-- `pretty_print::is_container` (printer.hpp lines 227-248): the primary
template requires `const_iterator`, `begin`, `end` and NOT string-like;
explicit specializations make `char[N]` false and `std::pair`/`std::tuple`
true.  (The `T[N]`/`std::valarray` specializations concern types outside
this grammar.) -/
def is_container : CppType → Bool
  | .charArray _ => false
  | .pairT _ _ => true
  | .tupleT _ => true
  | t => has_const_iterator t && has_begin_end_beg t && has_begin_end_end t
      && !is_string_like t

/-- The formatting category a type is dispatched to. -/
inductive PCategory where
  | scalarC
  | textC
  | pairC
  | tupleC
  | iterableC
deriving DecidableEq

/-- Overload resolution of `ToStringHelper` (printer.hpp lines 396-420):
the container overload needs `is_container && !is_string_like`, the scalar
overload `!is_container && !is_string_like`, the quoting overload
`!is_container && is_string_like`; a type satisfying none is a
compile-time rejection (`none`).  Containers are further dispatched by the
`printer` specializations to the pair, tuple or generic iterable body. -/
def classify (t : CppType) : Option PCategory :=
  if is_container t && !is_string_like t then
    some (match t with
      | .pairT _ _ => .pairC
      | .tupleT _ => .tupleC
      | _ => .iterableC)
  else if !is_container t && !is_string_like t then some .scalarC
  else if !is_container t && is_string_like t then some .textC
  else none

example : classify .intT = some .scalarC := by decide
example : classify .boolT = some .scalarC := by decide
example : classify .charT = some .textC := by decide
example : classify .stdString = some .textC := by decide
example : classify (.ptrT .charT) = some .textC := by decide
example : classify (.vectorT .intT) = some .iterableC := by decide
example : classify (.setT .stdString) = some .iterableC := by decide
example : classify (.pairT .intT .stdString) = some .pairC := by decide
example : classify (.charArray 6) = some .textC := by decide

/-- Characters that may appear in a scalar rendering: decimal digits and
the minus sign, and in particular none of the quote/bracket characters. -/
def scalar_char_ok (c : Char) : Bool :=
  (c.isDigit || c == '-') && c != '"' && c != '[' && c != ']'
    && c != '(' && c != ')' && c != Char.ofNat 123 && c != Char.ofNat 125

theorem scalar_char_ok_of_digit (c : Char) (h : c.isDigit = true) :
    scalar_char_ok c = true := by
  have hne : ∀ x : Char, x.isDigit = false → c ≠ x := by
    intro x hx e
    rw [e, hx] at h
    exact Bool.false_ne_true h
  simp [scalar_char_ok, h, hne '"' (by decide), hne '[' (by decide),
    hne ']' (by decide), hne '(' (by decide), hne ')' (by decide),
    hne (Char.ofNat 123) (by decide), hne (Char.ofNat 125) (by decide)]

theorem to_string_nat_ok (n : Nat) :
    (to_string_nat n).data.all scalar_char_ok = true :=
  List.all_eq_true.mpr fun c hc =>
    scalar_char_ok_of_digit c (to_string_nat_digits n c hc)

/-- C1: for every iterable value, an empty container formats as exactly
prefix + suffix (`[]` list-like, `{}` set-like); a nonempty container
formats as the prefix, the elements' recursively formatted texts in
traversal order joined by the separator (a single element gets no
separator), then the suffix. -/
theorem C1_iterable_formatting :
    (∀ k : ContainerKind, ToString (.iter k [])
        = optStr (container_delims k).pre ++ optStr (container_delims k).post)
    ∧ ToString (.iter .listLike []) = "[]"
    ∧ ToString (.iter .setLike []) = "\x7b\x7d"
    ∧ (∀ (k : ContainerKind) (es : List Value), ToString (.iter k es)
        = optStr (container_delims k).pre ++ joinSep ", " (es.map ToString)
          ++ optStr (container_delims k).post)
    ∧ (∀ (k : ContainerKind) (e : Value), ToString (.iter k [e])
        = optStr (container_delims k).pre ++ ToString e
          ++ optStr (container_delims k).post) := by
  refine ⟨?_, ?_, ?_, ?_, ?_⟩
  · intro k
    cases k <;> simp [ToString, helper_body, print_body, delimiters_of,
      container_delims, optStr]
  · simp [ToString, helper_body, print_body, delimiters_of, container_delims, optStr]
  · simp [ToString, helper_body, print_body, delimiters_of, container_delims, optStr]
  · intro k es
    cases k <;> simp [ToString, helper_body, delimiters_of, container_delims,
      optStr, print_body_some]
  · intro k e
    cases k <;> simp [ToString, helper_body, delimiters_of, container_delims,
      optStr, print_body, print_body_rest]

/-- C2: a 0-element tuple formats as `()`, a 1-element tuple as the prefix,
the bare element text and the suffix with no separator, and an N-element
tuple as the element texts in declared order joined by `, ` inside
parentheses; concretely `(1729)` and `(1, 2, "22", "2", 5, "21")`. -/
theorem C2_tuple_formatting :
    ToString (.tuple []) = "()"
    ∧ (∀ e : Value, ToString (.tuple [e]) = "(" ++ ToString e ++ ")")
    ∧ (∀ es : List Value, ToString (.tuple es)
        = "(" ++ joinSep ", " (es.map ToString) ++ ")")
    ∧ ToString (.tuple [.scalar (.sint 1729)]) = "(1729)"
    ∧ ToString (.tuple [.scalar (.sint 1), .scalar (.sint 2), .text "22",
        .text "2", .scalar (.sint 5), .text "21"])
      = "(1, 2, \"22\", \"2\", 5, \"21\")" := by
  refine ⟨?_, ?_, ?_, ?_, ?_⟩
  · simp [ToString, helper_body, tuple_print, delimiters_of, tuple_delims, optStr]
  · intro e
    simp [ToString, helper_body, tuple_print, tuple_print_rest, delimiters_of,
      tuple_delims, optStr]
  · intro es
    simp [ToString, helper_body, delimiters_of, tuple_delims, optStr,
      tuple_print_eq, print_body_some]
  · simp [ToString, helper_body, tuple_print, tuple_print_rest, delimiters_of,
      tuple_delims, optStr, scalar_to_string, to_string_int, to_string_nat,
      natDigitsAux]
  · simp [ToString, helper_body, tuple_print, tuple_print_rest, delimiters_of,
      tuple_delims, optStr, scalar_to_string, to_string_int, to_string_nat,
      natDigitsAux]

/-- C3: every string-like value formats as one quote character, the raw
contents unmodified (no escaping of embedded quotes or backslashes), and a
closing quote; `ab` renders as `"ab"`.  `std::string`, character pointers
and fixed `char` arrays are all dispatched to this quoting overload. -/
theorem C3_text_formatting :
    (∀ s : String, ToString (.text s) = "\"" ++ s ++ "\"")
    ∧ ToString (.text "ab") = "\"ab\""
    ∧ ToString (.text "a\"b\\c") = "\"a\"b\\c\""
    ∧ classify .stdString = some .textC
    ∧ classify (.ptrT .charT) = some .textC
    ∧ (∀ n : Nat, classify (.charArray n) = some .textC) := by
  refine ⟨fun s => by simp [ToString], by simp [ToString], by simp [ToString],
    by decide, by decide, fun n => rfl⟩

/-- C4: every scalar value formats as its `std::to_string` rendering — the
decimal/boolean digit form — and the resulting text contains only decimal
digits and the minus sign, so no surrounding brackets or quotes. -/
theorem C4_scalar_formatting :
    ∀ v : CScalar, ToString (.scalar v) = scalar_to_string v
      ∧ (ToString (.scalar v)).data.all scalar_char_ok = true := by
  intro v
  refine ⟨by simp [ToString], ?_⟩
  have h : ToString (.scalar v) = scalar_to_string v := by simp [ToString]
  rw [h]
  cases v with
  | sbool b => cases b <;> decide
  | sint i =>
      cases i with
      | ofNat n => exact to_string_nat_ok n
      | negSucc n =>
          show (("-" ++ to_string_nat (n + 1)).data.all scalar_char_ok) = true
          have hd : ("-" ++ to_string_nat (n + 1)).data
              = '-' :: (to_string_nat (n + 1)).data := by
            cases hs : to_string_nat (n + 1)
            rfl
          rw [hd, List.all_cons, to_string_nat_ok]
          decide

/-- C5 as stated is false: with the default delimiters —
`delimiters<std::pair<T1, T2>, char>::values = { "", ": ", "" }` in
printer.hpp — the pair `(42, "answer")` renders `42: "answer"`, not
`(42, "answer")`. -/
theorem C5_counterexample :
    ToString (.pair (.scalar (.sint 42)) (.text "answer")) ≠ "(42, \"answer\")" := by
  have h : ToString (.pair (.scalar (.sint 42)) (.text "answer"))
      = "42: \"answer\"" := by
    simp [ToString, helper_body, delimiters_of, pair_delims, optStr,
      scalar_to_string, to_string_int, to_string_nat, natDigitsAux]
  rw [h]
  decide

/-- C5 amended: the default pair delimiters are the map-entry style
`("", ": ", "")`, so the pair `(42, "answer")` formats as `42: "answer"`
by default, and formatting it through the custom-delimiter wrapper with the
parenthesis-style triple `("(", ", ", ")")` yields `(42, "answer")`. -/
theorem C5_pair_delimiters :
    ToString (.pair (.scalar (.sint 42)) (.text "answer")) = "42: \"answer\""
    ∧ custom_delims_wrapper ⟨some "(", some ", ", some ")"⟩
        (.pair (.scalar (.sint 42)) (.text "answer")) = "(42, \"answer\")" := by
  constructor
  · simp [ToString, helper_body, delimiters_of, pair_delims, optStr,
      scalar_to_string, to_string_int, to_string_nat, natDigitsAux]
  · simp [custom_delims_wrapper, print_container_helper, helper_body, optStr,
      ToString, scalar_to_string, to_string_int, to_string_nat, natDigitsAux]

/-- C6: a fixed-size `char[N]` array is classified Text, not Iterable:
`is_container<char[N]>` is the explicit `false` specialization while
`is_string_like` accepts it, so it is dispatched to the quoting overload
and renders as one quoted string, never as a bracketed element list. -/
theorem C6_char_array_is_text :
    (∀ n : Nat, is_container (.charArray n) = false)
    ∧ (∀ n : Nat, is_string_like (.charArray n) = true)
    ∧ (∀ n : Nat, classify (.charArray n) = some .textC)
    ∧ (∀ n : Nat, classify (.charArray n) ≠ some .iterableC)
    ∧ (∀ s : String, ToString (.text s) = "\"" ++ s ++ "\"") := by
  refine ⟨fun n => rfl, fun n => rfl, fun n => rfl,
    fun n h => by simp [classify, is_container, is_string_like, decayT,
      remove_pointer, remove_const, add_pointer] at h,
    fun s => by simp [ToString]⟩

/-- C7: a delimiter set with a NULL field still formats totally, simply
omitting that field: a NULL prefix or suffix contributes nothing, and a
NULL separator joins the recursively formatted element texts with nothing
between them, the element texts themselves unchanged. -/
theorem C7_null_delimiter_fields :
    ∀ (p d q : Option String) (k : ContainerKind) (es : List Value)
      (a b : Value) (ts : List Value),
      print_container_helper ⟨none, d, q⟩ (.iter k es)
          = print_body d es ++ optStr q
      ∧ print_container_helper ⟨p, d, none⟩ (.iter k es)
          = optStr p ++ print_body d es
      ∧ print_container_helper ⟨none, d, none⟩ (.iter k es) = print_body d es
      ∧ print_container_helper ⟨p, none, q⟩ (.iter k es)
          = optStr p ++ strConcat (es.map ToString) ++ optStr q
      ∧ print_container_helper ⟨p, none, q⟩ (.pair a b)
          = optStr p ++ (ToString a ++ ToString b) ++ optStr q
      ∧ print_container_helper ⟨p, none, q⟩ (.tuple ts)
          = optStr p ++ strConcat (ts.map ToString) ++ optStr q := by
  intro p d q k es a b ts
  refine ⟨?_, ?_, ?_, ?_, ?_, ?_⟩
  · simp [print_container_helper, helper_body, optStr]
  · simp [print_container_helper, helper_body, optStr]
  · simp [print_container_helper, helper_body, optStr]
  · simp [print_container_helper, helper_body, optStr, print_body_none]
  · simp [print_container_helper, helper_body, optStr]
  · simp [print_container_helper, helper_body, optStr, tuple_print_eq,
      print_body_none]

/-- C8: formatting any (finite, acyclic) value terminates with a string,
and the recursion depth is bounded by the value's nesting depth: running
the engine with a recursion budget of exactly `depth v` already produces
`ToString v`. -/
theorem C8_formatting_terminates :
    ∀ v : Value, ToStringFuel (depth v) v = some (ToString v) :=
  fun v => fuel_sufficient v (depth v) (Nat.le_refl _)

/-- C9: formatting a container through the one-off custom-delimiter
wrapper instantiated with the type's default delimiter set produces exactly
the output of formatting it directly: supplying no override is the
identity on output. -/
theorem C9_default_wrapper_identity :
    ∀ (k : ContainerKind) (es ts : List Value) (a b : Value),
      custom_delims_wrapper (container_delims k) (.iter k es)
          = ToString (.iter k es)
      ∧ custom_delims_wrapper pair_delims (.pair a b) = ToString (.pair a b)
      ∧ custom_delims_wrapper tuple_delims (.tuple ts) = ToString (.tuple ts) := by
  intro k es ts a b
  exact ⟨(ToString_iter_eq k es).symm, (ToString_pair_eq a b).symm,
    (ToString_tuple_eq ts).symm⟩

/-- C10 as stated is false for `char`: `is_string_like<char>` holds (its
decay/add_pointer chain yields `char*`), so a `char` value is dispatched to
the Text overload and never reaches the scalar `std::to_string` branch; in
particular the character `a` does not render as `97`. -/
theorem C10_counterexample :
    is_string_like .charT = true ∧ classify .charT = some .textC
      ∧ classify .charT ≠ some .scalarC := by
  decide

/-- C10 amended: every value that does reach the Scalar branch is rendered
with `std::to_string` — a bool as the digit `1` or `0`, never the words
`true`/`false`, and an integer in decimal — while a `char` never reaches
the Scalar branch because `is_string_like<char>` holds. -/
theorem C10_scalar_branch :
    (∀ b : Bool, ToString (.scalar (.sbool b)) = if b then "1" else "0")
    ∧ (∀ b : Bool, ToString (.scalar (.sbool b)) ≠ "true"
        ∧ ToString (.scalar (.sbool b)) ≠ "false")
    ∧ (∀ i : Int, ToString (.scalar (.sint i)) = to_string_int i)
    ∧ is_string_like .charT = true
    ∧ classify .charT = some .textC := by
  refine ⟨?_, ?_, ?_, by decide, by decide⟩
  · intro b; cases b <;> simp [ToString, scalar_to_string]
  · intro b
    cases b <;> constructor <;>
      (simp only [ToString, scalar_to_string] <;> decide)
  · intro i; simp [ToString, scalar_to_string]

end pretty_print
